import Mathlib

/-!
Shallow embedding of the pool ledger and pricing engine of the
`bonding_curve` Solana program (`programs/bonding_curve/src/state.rs`).

Machine integers: every on-chain quantity is a `u64`; we embed them as `Nat`
together with the explicit bound `U64_MAX`, and model Rust's
`checked_add` / `checked_sub` / `checked_mul` / `checked_div` as
`Option Nat` tests against that bound (for `checked_div`, division by zero).

Mutation: the Rust methods mutate their receiver and the provider account
through `&mut` references and propagate errors with `?`.  A method that
assigns a field and then fails leaves the assignment in place, so each
operation is embedded as a function returning `Except (e × state) state`:
the error case carries the state exactly as the Rust function leaves it at
the point of the early return.

The custody layer (`token::transfer`, `system_program::transfer`) is an
external collaborator and is not part of the ledger state; the embedded
operations stop after `update_reserves`, the last ledger mutation.
-/

namespace BondingCurve

/-- Upper bound of the `u64` range. -/
def U64_MAX : Nat := 2 ^ 64 - 1

/-- Rust `u64::checked_add`. -/
def checked_add (a b : Nat) : Option Nat :=
  if a + b ≤ U64_MAX then some (a + b) else none

/-- Rust `u64::checked_sub`. -/
def checked_sub (a b : Nat) : Option Nat :=
  if b ≤ a then some (a - b) else none

/-- Rust `u64::checked_mul`. -/
def checked_mul (a b : Nat) : Option Nat :=
  if a * b ≤ U64_MAX then some (a * b) else none

/-- Rust `u64::checked_div` (floor division; `none` exactly on a zero divisor). -/
def checked_div (a b : Nat) : Option Nat :=
  if b = 0 then none else some (a / b)

/-- Error variants of `errors.rs` that `state.rs` and the instruction
contexts raise (the spec's `ArithmeticOverflow` is the source's
`OverflowOrUnderflowOccurred`, covering overflow, underflow and
division by zero uniformly). -/
inductive CustomError where
  | DuplicateTokenNotAllowed
  | InvalidAmount
  | InsufficientShares
  | FailedToAddLiquidity
  | FailedToRemoveLiquidity
  | FailedToAllocateShares
  | FailedToDeallocateShares
  | OverflowOrUnderflowOccurred
deriving DecidableEq, Repr

/-- `CurveConfiguration`: the singleton fee record.  The source stores
`fees: f64`; the swap path never reads it (all fee arithmetic is commented
out), so the embedding carries it as a rational without loss. -/
structure CurveConfiguration where
  fees : ℚ
deriving DecidableEq

/-- `LiquidityProvider`: per-provider share balance (`shares: u64`). -/
structure LiquidityProvider where
  shares : Nat
deriving DecidableEq, Repr

/-- `LiquidityPool`: the pool ledger.  `token_one`/`token_two` are `Pubkey`s
(32-byte values, embedded as `Nat` — Rust's `Ord` on `Pubkey` is
byte-lexicographic, i.e. numeric on the big-endian value); `bump` is the
PDA nonce (`u8`). -/
structure LiquidityPool where
  token_one : Nat
  token_two : Nat
  total_supply : Nat
  reserve_one : Nat
  reserve_two : Nat
  bump : Nat
deriving DecidableEq, Repr

/-- `LiquidityPool::generate_seed`: concatenates the two token keys'
string renderings, larger key first.  `toString` stands in for the
base58 `Pubkey` rendering; the ordering argument is untouched by the
choice of rendering. -/
def generate_seed (token_one token_two : Nat) : String :=
  if token_two < token_one then toString token_one ++ toString token_two
  else toString token_two ++ toString token_one

/-- `LiquidityPool::new`. -/
def LiquidityPool.new (token_one token_two bump : Nat) : LiquidityPool :=
  { token_one := token_one, token_two := token_two, total_supply := 0,
    reserve_one := 0, reserve_two := 0, bump := bump }

/-- Result of an engine operation that holds `&mut` references to the pool
and a provider account: the error case carries the error code together with
the pool and provider exactly as the Rust method leaves them when it
returns early. -/
abbrev LedgerResult :=
  Except (CustomError × LiquidityPool × LiquidityProvider)
    (LiquidityPool × LiquidityProvider)

/-- `grant_shares`: `provider.shares = provider.shares.checked_add(shares)?`,
then `pool.total_supply = pool.total_supply.checked_sub(shares)?`.  The
provider assignment lands before the `total_supply` check, exactly as in
the source. -/
def grant_shares (pool : LiquidityPool) (lp : LiquidityProvider)
    (shares : Nat) : LedgerResult :=
  match checked_add lp.shares shares with
  | none => .error (.FailedToAllocateShares, pool, lp)
  | some s =>
    match checked_sub pool.total_supply shares with
    | none => .error (.OverflowOrUnderflowOccurred, pool, { lp with shares := s })
    | some t =>
      .ok ({ pool with total_supply := t }, { lp with shares := s })

/-- `remove_shares`: `provider.shares = provider.shares.checked_sub(shares)?`,
then `pool.total_supply = pool.total_supply.checked_sub(shares)?`. -/
def remove_shares (pool : LiquidityPool) (lp : LiquidityProvider)
    (shares : Nat) : LedgerResult :=
  match checked_sub lp.shares shares with
  | none => .error (.FailedToDeallocateShares, pool, lp)
  | some s =>
    match checked_sub pool.total_supply shares with
    | none => .error (.OverflowOrUnderflowOccurred, pool, { lp with shares := s })
    | some t =>
      .ok ({ pool with total_supply := t }, { lp with shares := s })

/-- `update_reserves`: plain assignment of both reserve fields. -/
def update_reserves (pool : LiquidityPool)
    (reserve_one reserve_two : Nat) : LiquidityPool :=
  { pool with reserve_one := reserve_one, reserve_two := reserve_two }

/-- Modelled from the spec: the bootstrap share count of `add_liquidity`.
The source computes
`(convert_to_float(amount_one, d1).mul(convert_to_float(amount_two, d2))).sqrt() as u64`
where `convert_to_float` lives in `utils.rs`, which is not under `src/`;
the spec defines the result as
floor(sqrt(amountOne_decimalAdjusted * amountTwo_decimalAdjusted)) with
decimal adjustment dividing each raw amount by 10 ^ decimals.  Over the
reals, floor(sqrt(x)) = Nat.sqrt (floor x) for x ≥ 0, so the spec value is
`Nat.sqrt (amount_one * amount_two / 10 ^ (d1 + d2))` with floor division. -/
def sqrt_shares (amount_one decimals_one amount_two decimals_two : Nat) : Nat :=
  Nat.sqrt (amount_one * amount_two / 10 ^ (decimals_one + decimals_two))

/-- `add_liquidity`.  `decimals_one`/`decimals_two` are the two mints'
decimal fields (read only on the bootstrap path).  The steady-state branch
uses the source's checked multiply/divide chain; the trailing custody
transfers are external and not part of the ledger state. -/
def add_liquidity (pool : LiquidityPool)
    (decimals_one decimals_two : Nat)
    (amount_one amount_two : Nat)
    (lp : LiquidityProvider) : LedgerResult :=
  match
    (if pool.total_supply = 0 then
      Except.ok (sqrt_shares amount_one decimals_one amount_two decimals_two)
    else
      match checked_mul amount_one pool.total_supply with
      | none => Except.error CustomError.OverflowOrUnderflowOccurred
      | some mul_value =>
        match checked_div mul_value pool.reserve_one with
        | none => Except.error CustomError.OverflowOrUnderflowOccurred
        | some shares_one =>
          match checked_mul amount_two pool.total_supply with
          | none => Except.error CustomError.OverflowOrUnderflowOccurred
          | some mul_value2 =>
            match checked_div mul_value2 pool.reserve_two with
            | none => Except.error CustomError.OverflowOrUnderflowOccurred
            | some shares_two =>
              Except.ok (min shares_one shares_two) :
      Except CustomError Nat)
  with
  | .error e => .error (e, pool, lp)
  | .ok shares_to_allocate =>
    if shares_to_allocate = 0 then
      .error (.FailedToAddLiquidity, pool, lp)
    else
      match grant_shares pool lp shares_to_allocate with
      | .error e => .error e
      | .ok (pool1, lp1) =>
        match checked_add pool1.reserve_one amount_one with
        | none => .error (.OverflowOrUnderflowOccurred, pool1, lp1)
        | some new_reserves_one =>
          match checked_add pool1.reserve_two amount_two with
          | none => .error (.OverflowOrUnderflowOccurred, pool1, lp1)
          | some new_reserves_two =>
            .ok (update_reserves pool1 new_reserves_one new_reserves_two, lp1)

/-- `remove_liquidity`. -/
def remove_liquidity (pool : LiquidityPool) (shares : Nat)
    (lp : LiquidityProvider) : LedgerResult :=
  if shares = 0 then
    .error (.FailedToRemoveLiquidity, pool, lp)
  else if lp.shares < shares then
    .error (.InsufficientShares, pool, lp)
  else
    match checked_mul shares pool.reserve_one with
    | none => .error (.OverflowOrUnderflowOccurred, pool, lp)
    | some mul_value =>
      match checked_div mul_value pool.total_supply with
      | none => .error (.OverflowOrUnderflowOccurred, pool, lp)
      | some amount_out_one =>
        match checked_mul shares pool.reserve_two with
        | none => .error (.OverflowOrUnderflowOccurred, pool, lp)
        | some mul_value2 =>
          match checked_div mul_value2 pool.total_supply with
          | none => .error (.OverflowOrUnderflowOccurred, pool, lp)
          | some amount_out_two =>
            if amount_out_one = 0 ∨ amount_out_two = 0 then
              .error (.FailedToRemoveLiquidity, pool, lp)
            else
              match remove_shares pool lp shares with
              | .error e => .error e
              | .ok (pool1, lp1) =>
                match checked_sub pool1.reserve_one amount_out_one with
                | none => .error (.OverflowOrUnderflowOccurred, pool1, lp1)
                | some new_reserves_one =>
                  match checked_sub pool1.reserve_two amount_out_two with
                  | none => .error (.OverflowOrUnderflowOccurred, pool1, lp1)
                  | some new_reserves_two =>
                    .ok (update_reserves pool1 new_reserves_one new_reserves_two,
                      lp1)

/-- The closed-form swap output on the no-overflow range:
`(reserve_one * 2 + amount + 1) * (amount / 2) * initial_price` with floor
division for `amount / 2`. -/
def swap_amount_out (reserve_one amount initial_price : Nat) : Nat :=
  (reserve_one * 2 + amount + 1) * (amount / 2) * initial_price

/-- `swap`.  `bonding_configuration_account` mirrors the source parameter; the
body never reads it.  `initial_price` is the `INITIAL_PRICE` constant of
`consts.rs` (not under `src/`; kept as a parameter — the spec fixes no
value beyond the worked example's 1).  No provider account appears in the
source's `Swap` context, so none appears here. -/
def swap (bonding_configuration_account : CurveConfiguration)
    (initial_price : Nat) (pool : LiquidityPool) (amount : Nat) :
    Except (CustomError × LiquidityPool) LiquidityPool :=
  if amount = 0 then
    .error (.InvalidAmount, pool)
  else
    match checked_mul pool.reserve_one 2 with
    | none => .error (.OverflowOrUnderflowOccurred, pool)
    | some reserve_doubled =>
      match checked_add reserve_doubled amount with
      | none => .error (.OverflowOrUnderflowOccurred, pool)
      | some sum_inc =>
        match checked_add sum_inc 1 with
        | none => .error (.OverflowOrUnderflowOccurred, pool)
        | some amount_inc =>
          match checked_div amount 2 with
          | none => .error (.OverflowOrUnderflowOccurred, pool)
          | some multiplier =>
            match checked_mul amount_inc multiplier with
            | none => .error (.OverflowOrUnderflowOccurred, pool)
            | some curve_value =>
              match checked_mul curve_value initial_price with
              | none => .error (.OverflowOrUnderflowOccurred, pool)
              | some amount_out =>
                match checked_add pool.reserve_one amount with
                | none => .error (.OverflowOrUnderflowOccurred, pool)
                | some new_reserves_one =>
                  match checked_sub pool.reserve_two amount_out with
                  | none => .error (.OverflowOrUnderflowOccurred, pool)
                  | some new_reserves_two =>
                    .ok (update_reserves pool new_reserves_one new_reserves_two)


/-! Inversion and evaluation lemmas for the checked arithmetic and the
share-accounting steps, shared by the claim theorems below. -/

theorem checked_add_eq_some {a b c : Nat} :
    checked_add a b = some c ↔ a + b ≤ U64_MAX ∧ c = a + b := by
  unfold checked_add
  split_ifs with h <;> simp_all
  omega

theorem checked_sub_eq_some {a b c : Nat} :
    checked_sub a b = some c ↔ b ≤ a ∧ c = a - b := by
  unfold checked_sub
  split_ifs with h <;> simp_all
  omega

theorem checked_mul_eq_some {a b c : Nat} :
    checked_mul a b = some c ↔ a * b ≤ U64_MAX ∧ c = a * b := by
  unfold checked_mul
  split_ifs with h <;> simp_all
  omega

theorem checked_div_eq_some {a b c : Nat} :
    checked_div a b = some c ↔ b ≠ 0 ∧ c = a / b := by
  unfold checked_div
  split_ifs with h <;> simp_all
  exact eq_comm

theorem checked_add_of_le {a b : Nat} (h : a + b ≤ U64_MAX) :
    checked_add a b = some (a + b) := if_pos h

theorem checked_sub_of_le {a b : Nat} (h : b ≤ a) :
    checked_sub a b = some (a - b) := if_pos h

theorem checked_sub_of_lt {a b : Nat} (h : a < b) :
    checked_sub a b = none := if_neg (by omega)

theorem checked_mul_of_le {a b : Nat} (h : a * b ≤ U64_MAX) :
    checked_mul a b = some (a * b) := if_pos h

theorem checked_div_of_ne {a b : Nat} (h : b ≠ 0) :
    checked_div a b = some (a / b) := if_neg h

theorem grant_shares_ok_iff {pool pool' : LiquidityPool}
    {lp lp' : LiquidityProvider} {n : Nat} :
    grant_shares pool lp n = .ok (pool', lp') ↔
      lp.shares + n ≤ U64_MAX ∧ n ≤ pool.total_supply ∧
      pool' = { pool with total_supply := pool.total_supply - n } ∧
      lp' = { lp with shares := lp.shares + n } := by
  unfold grant_shares checked_add checked_sub
  split_ifs with h1 h2 <;> simp_all <;> aesop

theorem remove_shares_ok_iff {pool pool' : LiquidityPool}
    {lp lp' : LiquidityProvider} {n : Nat} :
    remove_shares pool lp n = .ok (pool', lp') ↔
      n ≤ lp.shares ∧ n ≤ pool.total_supply ∧
      pool' = { pool with total_supply := pool.total_supply - n } ∧
      lp' = { lp with shares := lp.shares - n } := by
  unfold remove_shares checked_sub
  split_ifs with h1 h2 <;> simp_all <;> aesop

theorem grant_shares_eq_ok {pool : LiquidityPool} {lp : LiquidityProvider}
    {n : Nat} (h1 : lp.shares + n ≤ U64_MAX) (h2 : n ≤ pool.total_supply) :
    grant_shares pool lp n =
      .ok ({ pool with total_supply := pool.total_supply - n },
        { lp with shares := lp.shares + n }) :=
  grant_shares_ok_iff.mpr ⟨h1, h2, rfl, rfl⟩

theorem remove_shares_eq_ok {pool : LiquidityPool} {lp : LiquidityProvider}
    {n : Nat} (h1 : n ≤ lp.shares) (h2 : n ≤ pool.total_supply) :
    remove_shares pool lp n =
      .ok ({ pool with total_supply := pool.total_supply - n },
        { lp with shares := lp.shares - n }) :=
  remove_shares_ok_iff.mpr ⟨h1, h2, rfl, rfl⟩

theorem grant_shares_error_frame {pool : LiquidityPool} {lp : LiquidityProvider}
    {n : Nat} {err : CustomError × LiquidityPool × LiquidityProvider} :
    grant_shares pool lp n = .error err → err.2.1 = pool := by
  intro h
  unfold grant_shares at h
  repeat' split at h
  · simp only [Except.error.injEq] at h
    subst h
    rfl
  · simp only [Except.error.injEq] at h
    subst h
    rfl
  · simp at h

theorem remove_shares_error_frame {pool : LiquidityPool} {lp : LiquidityProvider}
    {n : Nat} {err : CustomError × LiquidityPool × LiquidityProvider} :
    remove_shares pool lp n = .error err → err.2.1 = pool := by
  intro h
  unfold remove_shares at h
  repeat' split at h
  · simp only [Except.error.injEq] at h
    subst h
    rfl
  · simp only [Except.error.injEq] at h
    subst h
    rfl
  · simp at h

theorem swap_error_frame :
    ∀ (c : CurveConfiguration) (p : Nat) (pool : LiquidityPool) (amount : Nat)
      (e : CustomError) (pool' : LiquidityPool),
      swap c p pool amount = .error (e, pool') → pool' = pool := by
  intro c p pool amount e pool' h
  unfold swap at h
  repeat' split at h
  all_goals simp_all

theorem swap_amount_out_succ_lt (r p a : Nat) (hp : 1 ≤ p) (ha : 2 ≤ a) :
    swap_amount_out r a p < swap_amount_out r (a + 1) p := by
  unfold swap_amount_out
  rcases Nat.even_or_odd a with ⟨k, hk⟩ | ⟨k, hk⟩
  · subst hk
    have h1 : (k + k) / 2 = k := by omega
    have h2 : (k + k + 1) / 2 = k := by omega
    rw [h1, h2]
    have hk1 : 1 ≤ k := by omega
    nlinarith
  · subst hk
    have h1 : (2 * k + 1) / 2 = k := by omega
    have h2 : (2 * k + 1 + 1) / 2 = k + 1 := by omega
    rw [h1, h2]
    nlinarith

/-! Claim theorems. -/

/-- C1: a successful grant_shares adds the granted count to the provider
position with a checked add (overflow is FailedToAllocateShares) and at the
same time subtracts that count from pool.total_supply, never adding to it;
a successful remove_shares subtracts the count from both the position and
total_supply; neither operation touches either reserve field. -/
theorem claim_C1 :
    (∀ (pool pool' : LiquidityPool) (lp lp' : LiquidityProvider) (n : Nat),
      grant_shares pool lp n = .ok (pool', lp') →
        lp'.shares = lp.shares + n ∧
        n ≤ pool.total_supply ∧
        pool'.total_supply = pool.total_supply - n ∧
        pool'.reserve_one = pool.reserve_one ∧
        pool'.reserve_two = pool.reserve_two) ∧
    (∀ (pool : LiquidityPool) (lp : LiquidityProvider) (n : Nat),
      U64_MAX < lp.shares + n →
        grant_shares pool lp n = .error (.FailedToAllocateShares, pool, lp)) ∧
    (∀ (pool pool' : LiquidityPool) (lp lp' : LiquidityProvider) (n : Nat),
      remove_shares pool lp n = .ok (pool', lp') →
        n ≤ lp.shares ∧
        lp'.shares = lp.shares - n ∧
        pool'.total_supply = pool.total_supply - n ∧
        pool'.reserve_one = pool.reserve_one ∧
        pool'.reserve_two = pool.reserve_two) := by
  refine ⟨?_, ?_, ?_⟩
  · intro pool pool' lp lp' n h
    obtain ⟨hb, hn, rfl, rfl⟩ := grant_shares_ok_iff.mp h
    exact ⟨rfl, hn, rfl, rfl, rfl⟩
  · intro pool lp n h
    unfold grant_shares checked_add
    rw [if_neg (by omega)]
  · intro pool pool' lp lp' n h
    obtain ⟨hn, ht, rfl, rfl⟩ := remove_shares_ok_iff.mp h
    exact ⟨hn, rfl, rfl, rfl, rfl⟩

/-- Witness for C1: a concrete successful grant of 4 shares against a pool
with total_supply 10 and a position holding 3. -/
theorem claim_C1_witness :
    grant_shares ⟨1, 2, 10, 5, 6, 0⟩ ⟨3⟩ 4 = .ok (⟨1, 2, 6, 5, 6, 0⟩, ⟨7⟩) ∧
    ((7 : Nat) = 3 + 4 ∧ (4 : Nat) ≤ 10 ∧ (6 : Nat) = 10 - 4 ∧
      (5 : Nat) = 5 ∧ (6 : Nat) = 6) := by
  have h : grant_shares ⟨1, 2, 10, 5, 6, 0⟩ ⟨3⟩ 4 =
      .ok (⟨1, 2, 6, 5, 6, 0⟩, ⟨7⟩) := rfl
  exact ⟨h, claim_C1.1 ⟨1, 2, 10, 5, 6, 0⟩ ⟨1, 2, 6, 5, 6, 0⟩ ⟨3⟩ ⟨7⟩ 4 h⟩

/-- C2, amended: a failed swap leaves the pool exactly as it was, and failed
addLiquidity / removeLiquidity calls leave both reserves as they were;
the original claim that no field at all is mutated on failure is refuted by
claim_C2_counterexample, because grant_shares / remove_shares assign the
provider position before the total_supply check can fail. -/
theorem claim_C2 :
    (∀ (c : CurveConfiguration) (p : Nat) (pool : LiquidityPool)
       (amount : Nat) (e : CustomError) (pool' : LiquidityPool),
       swap c p pool amount = .error (e, pool') → pool' = pool) ∧
    (∀ (pool : LiquidityPool) (d1 d2 a1 a2 : Nat) (lp : LiquidityProvider)
       (e : CustomError) (pool' : LiquidityPool) (lp' : LiquidityProvider),
       add_liquidity pool d1 d2 a1 a2 lp = .error (e, pool', lp') →
         pool'.reserve_one = pool.reserve_one ∧
         pool'.reserve_two = pool.reserve_two) ∧
    (∀ (pool : LiquidityPool) (shares : Nat) (lp : LiquidityProvider)
       (e : CustomError) (pool' : LiquidityPool) (lp' : LiquidityProvider),
       remove_liquidity pool shares lp = .error (e, pool', lp') →
         pool'.reserve_one = pool.reserve_one ∧
         pool'.reserve_two = pool.reserve_two) := by
  refine ⟨swap_error_frame, ?_, ?_⟩
  · intro pool d1 d2 a1 a2 lp e pool' lp' h
    unfold add_liquidity at h
    split at h
    · simp_all
    · split at h
      · simp_all
      · split at h
        · rename_i err heq
          have hfr := grant_shares_error_frame heq
          simp only [Except.error.injEq] at h
          subst h
          simp_all
        · rename_i pool1 lp1 heq
          obtain ⟨hb, hn, rfl, rfl⟩ := grant_shares_ok_iff.mp heq
          split at h
          · simp only [Except.error.injEq, Prod.mk.injEq] at h
            obtain ⟨-, hp, -⟩ := h
            subst hp
            exact ⟨rfl, rfl⟩
          · split at h
            · simp only [Except.error.injEq, Prod.mk.injEq] at h
              obtain ⟨-, hp, -⟩ := h
              subst hp
              exact ⟨rfl, rfl⟩
            · simp_all
  · intro pool shares lp e pool' lp' h
    unfold remove_liquidity at h
    split at h
    · simp_all
    · split at h
      · simp_all
      · split at h
        · simp_all
        · split at h
          · simp_all
          · split at h
            · simp_all
            · split at h
              · simp_all
              · split at h
                · simp_all
                · split at h
                  · rename_i err heq
                    have hfr := remove_shares_error_frame heq
                    simp only [Except.error.injEq] at h
                    subst h
                    simp_all
                  · rename_i pool1 lp1 heq
                    obtain ⟨hb, hn, rfl, rfl⟩ := remove_shares_ok_iff.mp heq
                    split at h
                    · simp only [Except.error.injEq, Prod.mk.injEq] at h
                      obtain ⟨-, hp, -⟩ := h
                      subst hp
                      exact ⟨rfl, rfl⟩
                    · split at h
                      · simp only [Except.error.injEq, Prod.mk.injEq] at h
                        obtain ⟨-, hp, -⟩ := h
                        subst hp
                        exact ⟨rfl, rfl⟩
                      · simp_all

/-- Counterexample for C2 as stated: on an empty pool, add_liquidity of
(4, 9) at 0 decimals computes 6 bootstrap shares, writes them into the
provider position, and only then fails the total_supply checked subtraction
(0 - 6); the call returns an error yet the returned provider position
differs from the input position, so the ledger is not left untouched by the
failing Rust method itself. -/
theorem claim_C2_counterexample :
    add_liquidity ⟨1, 2, 0, 0, 0, 9⟩ 0 0 4 9 ⟨0⟩ =
      .error (.OverflowOrUnderflowOccurred, ⟨1, 2, 0, 0, 0, 9⟩, ⟨6⟩) ∧
    (⟨6⟩ : LiquidityProvider) ≠ (⟨0⟩ : LiquidityProvider) := by
  constructor
  · have h : sqrt_shares 4 0 9 0 = 6 := by
      unfold sqrt_shares
      norm_num
    simp only [add_liquidity, h]
    norm_num [grant_shares, checked_add, checked_sub, U64_MAX]
  · simp

/-- Witness for C2: a concrete failing swap (amount 0) whose error carries
the pool unchanged. -/
theorem claim_C2_witness :
    swap ⟨0⟩ 1 ⟨1, 2, 3, 4, 5, 6⟩ 0 = .error (.InvalidAmount, ⟨1, 2, 3, 4, 5, 6⟩) ∧
    (⟨1, 2, 3, 4, 5, 6⟩ : LiquidityPool) = ⟨1, 2, 3, 4, 5, 6⟩ := by
  have h : swap ⟨0⟩ 1 ⟨1, 2, 3, 4, 5, 6⟩ 0 =
      .error (.InvalidAmount, ⟨1, 2, 3, 4, 5, 6⟩) := rfl
  exact ⟨h, claim_C2.1 ⟨0⟩ 1 ⟨1, 2, 3, 4, 5, 6⟩ 0 .InvalidAmount ⟨1, 2, 3, 4, 5, 6⟩ h⟩

/-- C3: the spec example says addLiquidity(100, 400) on an empty pool (both
assets at 0 decimals) succeeds and mints floor(sqrt(100 * 400)) = 200
shares.  The code does compute 200 bootstrap shares, but grant_shares then
subtracts them from total_supply, which is 0 on an empty pool, so the
checked subtraction fails and every bootstrap deposit errors with
OverflowOrUnderflowOccurred instead of succeeding. -/
theorem claim_C3 :
    add_liquidity ⟨1, 2, 0, 0, 0, 255⟩ 0 0 100 400 ⟨0⟩ =
      .error (.OverflowOrUnderflowOccurred, ⟨1, 2, 0, 0, 0, 255⟩, ⟨200⟩) ∧
    sqrt_shares 100 0 400 0 = 200 := by
  have h : sqrt_shares 100 0 400 0 = 200 := by
    unfold sqrt_shares
    norm_num
  refine ⟨?_, h⟩
  simp only [add_liquidity, h]
  norm_num [grant_shares, checked_add, checked_sub, U64_MAX]

/-- Counterexample for C4 as stated: from reserves 100/400 and totalShares
200, depositing (10, 40) mints 20 shares and sets the reserves to 110/440,
but leaves total_supply at 180 = 200 - 20 (grant_shares subtracts the
minted shares), not at the claimed 220. -/
theorem claim_C4_counterexample :
    add_liquidity ⟨1, 2, 200, 100, 400, 255⟩ 0 0 10 40 ⟨0⟩ =
      .ok (⟨1, 2, 180, 110, 440, 255⟩, ⟨20⟩) ∧
    (180 : Nat) ≠ 220 := by
  constructor
  · rfl
  · decide

/-- C4, amended: in the steady state (total_supply nonzero) a successful
add_liquidity mints min(floor(a1 * T / r1), floor(a2 * T / r2)) shares to
the provider and increments both reserves by the deposited amounts, but
total_supply becomes T minus the minted shares (not T plus them); on the
worked example (100/400/200, deposit 10/40) this gives reserves 110/440,
position +20 and total_supply 180. -/
theorem claim_C4 :
    (∀ (pool : LiquidityPool) (d1 d2 a1 a2 : Nat) (lp : LiquidityProvider),
      pool.total_supply ≠ 0 →
      a1 * pool.total_supply ≤ U64_MAX →
      a2 * pool.total_supply ≤ U64_MAX →
      pool.reserve_one ≠ 0 →
      pool.reserve_two ≠ 0 →
      min (a1 * pool.total_supply / pool.reserve_one)
          (a2 * pool.total_supply / pool.reserve_two) ≠ 0 →
      lp.shares + min (a1 * pool.total_supply / pool.reserve_one)
          (a2 * pool.total_supply / pool.reserve_two) ≤ U64_MAX →
      min (a1 * pool.total_supply / pool.reserve_one)
          (a2 * pool.total_supply / pool.reserve_two) ≤ pool.total_supply →
      pool.reserve_one + a1 ≤ U64_MAX →
      pool.reserve_two + a2 ≤ U64_MAX →
      add_liquidity pool d1 d2 a1 a2 lp =
        .ok ({ pool with
            total_supply := pool.total_supply -
              (min (a1 * pool.total_supply / pool.reserve_one)
                (a2 * pool.total_supply / pool.reserve_two)),
            reserve_one := pool.reserve_one + a1,
            reserve_two := pool.reserve_two + a2 },
          { lp with shares := lp.shares +
              (min (a1 * pool.total_supply / pool.reserve_one)
                (a2 * pool.total_supply / pool.reserve_two)) })) ∧
    add_liquidity ⟨1, 2, 200, 100, 400, 255⟩ 0 0 10 40 ⟨0⟩ =
      .ok (⟨1, 2, 180, 110, 440, 255⟩, ⟨20⟩) := by
  constructor
  · intro pool d1 d2 a1 a2 lp hT h1 h2 hr1 hr2 hs hb hsup hra hrb
    unfold add_liquidity
    rw [if_neg hT]
    simp only [checked_mul_of_le h1, checked_div_of_ne hr1,
      checked_mul_of_le h2, checked_div_of_ne hr2]
    rw [if_neg hs]
    simp only [grant_shares_eq_ok hb hsup]
    simp only [checked_add_of_le hra, checked_add_of_le hrb, update_reserves]
  · rfl

/-- Witness for C4: the general steady-state statement applied to a pool
with reserves 100/400, total_supply 200 and a position holding 5. -/
theorem claim_C4_witness :
    add_liquidity ⟨3, 4, 200, 100, 400, 7⟩ 0 0 10 40 ⟨5⟩ =
      .ok (⟨3, 4, 180, 110, 440, 7⟩, ⟨25⟩) := by
  have h := claim_C4.1 ⟨3, 4, 200, 100, 400, 7⟩ 0 0 10 40 ⟨5⟩
    (by decide) (by decide) (by decide) (by decide) (by decide)
    (by decide) (by decide) (by decide) (by decide) (by decide)
  exact h

/-- C5: on the no-overflow range, swap with a positive amount computes
amount_out = (reserve_one * 2 + amount + 1) * (amount / 2) * initial_price
with floor division for amount / 2, then adds the amount to reserve_one and
subtracts amount_out from reserve_two, failing (with the source error the
spec calls ArithmeticOverflow) and leaving the pool untouched whenever
reserve_two < amount_out; with reserve_one = 0 and price 1, swap of 4
pays out 10 and moves reserve_one to 4. -/
theorem claim_C5 :
    (∀ (c : CurveConfiguration) (p : Nat) (pool : LiquidityPool) (amount : Nat),
      amount ≠ 0 →
      pool.reserve_one * 2 + amount + 1 ≤ U64_MAX →
      (pool.reserve_one * 2 + amount + 1) * (amount / 2) ≤ U64_MAX →
      swap_amount_out pool.reserve_one amount p ≤ U64_MAX →
      pool.reserve_one + amount ≤ U64_MAX →
      ((swap_amount_out pool.reserve_one amount p ≤ pool.reserve_two →
          swap c p pool amount = .ok { pool with
            reserve_one := pool.reserve_one + amount,
            reserve_two := pool.reserve_two -
              swap_amount_out pool.reserve_one amount p }) ∧
        (pool.reserve_two < swap_amount_out pool.reserve_one amount p →
          swap c p pool amount = .error (.OverflowOrUnderflowOccurred, pool)))) ∧
    swap_amount_out 0 4 1 = 10 ∧
    (∀ (c : CurveConfiguration),
      swap c 1 ⟨9, 7, 3, 0, 100, 1⟩ 4 = .ok ⟨9, 7, 3, 4, 90, 1⟩) := by
  refine ⟨?_, rfl, fun c => rfl⟩
  intro c p pool amount h0 h1 h2 h3 h4
  have hmul2 : pool.reserve_one * 2 ≤ U64_MAX := by omega
  have hadd1 : pool.reserve_one * 2 + amount ≤ U64_MAX := by omega
  simp only [swap_amount_out] at h3
  constructor
  · intro hle
    unfold swap
    rw [if_neg h0]
    simp only [checked_mul_of_le hmul2, checked_add_of_le hadd1,
      checked_add_of_le h1, checked_div_of_ne (two_ne_zero),
      checked_mul_of_le h2, checked_mul_of_le h3,
      checked_add_of_le h4]
    simp only [swap_amount_out] at hle
    simp only [checked_sub_of_le hle, update_reserves, swap_amount_out]
  · intro hlt
    unfold swap
    rw [if_neg h0]
    simp only [swap_amount_out] at hlt
    simp only [checked_mul_of_le hmul2, checked_add_of_le hadd1,
      checked_add_of_le h1, checked_div_of_ne (two_ne_zero),
      checked_mul_of_le h2, checked_mul_of_le h3,
      checked_add_of_le h4, checked_sub_of_lt hlt]

/-- Witness for C5: the success branch on reserves 0/100 with amount 4 and
price 1 (payout 10), and the underflow branch on reserves 0/5 where the
pool cannot pay 10. -/
theorem claim_C5_witness :
    swap ⟨0⟩ 1 ⟨9, 7, 3, 0, 100, 1⟩ 4 =
      .ok ⟨9, 7, 3, 4, 90, 1⟩ ∧
    swap ⟨0⟩ 1 ⟨9, 7, 3, 0, 5, 1⟩ 4 =
      .error (.OverflowOrUnderflowOccurred, ⟨9, 7, 3, 0, 5, 1⟩) := by
  constructor
  · have h := (claim_C5.1 ⟨0⟩ 1 ⟨9, 7, 3, 0, 100, 1⟩ 4
      (by decide) (by decide) (by decide) (by decide) (by decide)).1 (by decide)
    exact h
  · have h := (claim_C5.1 ⟨0⟩ 1 ⟨9, 7, 3, 0, 5, 1⟩ 4
      (by decide) (by decide) (by decide) (by decide) (by decide)).2 (by decide)
    exact h

/-- C6: for a fixed reserve_one the swap payout is strictly increasing in
the amount once amount is at least 2 (given a positive price constant),
and an amount of 1 pays out 0 because of the floor in amount / 2. -/
theorem claim_C6 :
    (∀ (r p a b : Nat), 1 ≤ p → 2 ≤ a → a < b →
      swap_amount_out r a p < swap_amount_out r b p) ∧
    (∀ (r p : Nat), swap_amount_out r 1 p = 0) := by
  constructor
  · intro r p a b hp ha hab
    induction b with
    | zero => omega
    | succ n ih =>
      rcases Nat.lt_succ_iff_lt_or_eq.mp hab with h | h
      · exact lt_trans (ih h) (swap_amount_out_succ_lt r p n hp (by omega))
      · subst h
        exact swap_amount_out_succ_lt r p a hp ha
  · intro r p
    unfold swap_amount_out
    norm_num

/-- Witness for C6: strict growth from amount 2 to 3 at reserve 0 and
price 1, and the zero payout at amount 1. -/
theorem claim_C6_witness :
    swap_amount_out 0 2 1 < swap_amount_out 0 3 1 ∧
    swap_amount_out 0 1 1 = 0 := by
  constructor
  · exact claim_C6.1 0 1 2 3 (by decide) (by decide) (by decide)
  · exact claim_C6.2 0 1

/-- C7: remove_liquidity rejects a request exceeding the provider position
with InsufficientShares (leaving state untouched); any successful removal
pays out floor(shares * reserve / total_supply) of each asset, burns the
shares from both the position and total_supply, and decrements each
reserve by its payout, with both payouts necessarily nonzero; a zero
payout on either side is rejected with FailedToRemoveLiquidity; removing
the 20 shares of the steady-state example from reserves 110/440 at
total_supply 220 returns 10 and 40 and restores reserves 100/400. -/
theorem claim_C7 :
    (∀ (pool : LiquidityPool) (lp : LiquidityProvider) (shares : Nat),
      shares ≠ 0 → lp.shares < shares →
      remove_liquidity pool shares lp = .error (.InsufficientShares, pool, lp)) ∧
    (∀ (pool pool' : LiquidityPool) (lp lp' : LiquidityProvider) (shares : Nat),
      remove_liquidity pool shares lp = .ok (pool', lp') →
        pool'.reserve_one =
          pool.reserve_one - shares * pool.reserve_one / pool.total_supply ∧
        pool'.reserve_two =
          pool.reserve_two - shares * pool.reserve_two / pool.total_supply ∧
        lp'.shares = lp.shares - shares ∧
        pool'.total_supply = pool.total_supply - shares ∧
        shares * pool.reserve_one / pool.total_supply ≠ 0 ∧
        shares * pool.reserve_two / pool.total_supply ≠ 0) ∧
    (∀ (pool : LiquidityPool) (lp : LiquidityProvider) (shares : Nat),
      shares ≠ 0 → ¬lp.shares < shares →
      shares * pool.reserve_one ≤ U64_MAX →
      shares * pool.reserve_two ≤ U64_MAX →
      pool.total_supply ≠ 0 →
      (shares * pool.reserve_one / pool.total_supply = 0 ∨
        shares * pool.reserve_two / pool.total_supply = 0) →
      remove_liquidity pool shares lp =
        .error (.FailedToRemoveLiquidity, pool, lp)) ∧
    remove_liquidity ⟨1, 2, 220, 110, 440, 255⟩ 20 ⟨20⟩ =
      .ok (⟨1, 2, 200, 100, 400, 255⟩, ⟨0⟩) := by
  refine ⟨?_, ?_, ?_, rfl⟩
  · intro pool lp shares h0 hlt
    unfold remove_liquidity
    rw [if_neg h0, if_pos hlt]
  · intro pool pool' lp lp' shares h
    unfold remove_liquidity at h
    repeat' split at h
    all_goals simp_all [checked_mul_eq_some, checked_div_eq_some,
      checked_sub_eq_some, remove_shares_ok_iff, update_reserves]
    obtain ⟨hp, hl⟩ := h
    subst hp
    subst hl
    simp
  · intro pool lp shares h0 hge h1 h2 hT hz
    unfold remove_liquidity
    rw [if_neg h0, if_neg hge]
    simp only [checked_mul_of_le h1, checked_div_of_ne hT,
      checked_mul_of_le h2]
    rw [if_pos hz]

/-- Witness for C7: removing 5 shares from a position holding only 3 fails
with InsufficientShares and returns the state unchanged. -/
theorem claim_C7_witness :
    remove_liquidity ⟨1, 2, 220, 110, 440, 255⟩ 5 ⟨3⟩ =
      .error (.InsufficientShares, ⟨1, 2, 220, 110, 440, 255⟩, ⟨3⟩) := by
  exact claim_C7.1 ⟨1, 2, 220, 110, 440, 255⟩ ⟨3⟩ 5 (by decide) (by decide)

/-- C8: swap never reads the fee configuration: two runs that differ only
in the CurveConfiguration record produce identical results (same payout,
same resulting reserves, same success-or-error outcome). -/
theorem claim_C8 :
    ∀ (c1 c2 : CurveConfiguration) (initial_price : Nat)
      (pool : LiquidityPool) (amount : Nat),
      swap c1 initial_price pool amount = swap c2 initial_price pool amount :=
  fun _ _ _ _ _ => rfl

/-- C9: generate_seed is order-independent in its two token arguments, so
the pool address derived from it is the same for (A, B) and (B, A). -/
theorem claim_C9 :
    ∀ (a b : Nat), generate_seed a b = generate_seed b a := by
  intro a b
  unfold generate_seed
  rcases lt_trichotomy a b with h | h | h
  · rw [if_neg (by omega), if_pos h]
  · subst h
    rfl
  · rw [if_pos h, if_neg (by omega)]

/-- C10: swap only ever writes the two reserve fields: on success the
token keys, total_supply and bump are unchanged, and on failure the whole
pool is unchanged; no provider position occurs in the swap context at
all, so none can be modified. -/
theorem claim_C10 :
    (∀ (c : CurveConfiguration) (p : Nat) (pool : LiquidityPool)
       (amount : Nat) (pool' : LiquidityPool),
       swap c p pool amount = .ok pool' →
         pool'.token_one = pool.token_one ∧
         pool'.token_two = pool.token_two ∧
         pool'.total_supply = pool.total_supply ∧
         pool'.bump = pool.bump) ∧
    (∀ (c : CurveConfiguration) (p : Nat) (pool : LiquidityPool)
       (amount : Nat) (e : CustomError) (pool' : LiquidityPool),
       swap c p pool amount = .error (e, pool') → pool' = pool) := by
  constructor
  · intro c p pool amount pool' h
    unfold swap at h
    repeat' split at h
    all_goals simp_all [update_reserves]
    subst h
    simp
  · exact swap_error_frame

/-- Witness for C10: a concrete successful swap against a pool with
total_supply 3 keeps the token keys, the total supply and the bump. -/
theorem claim_C10_witness :
    swap ⟨0⟩ 1 ⟨11, 12, 3, 0, 100, 8⟩ 4 = .ok ⟨11, 12, 3, 4, 90, 8⟩ ∧
    ((11 : Nat) = 11 ∧ (12 : Nat) = 12 ∧ (3 : Nat) = 3 ∧ (8 : Nat) = 8) := by
  have h : swap ⟨0⟩ 1 ⟨11, 12, 3, 0, 100, 8⟩ 4 = .ok ⟨11, 12, 3, 4, 90, 8⟩ := rfl
  exact ⟨h, claim_C10.1 ⟨0⟩ 1 ⟨11, 12, 3, 0, 100, 8⟩ 4 ⟨11, 12, 3, 4, 90, 8⟩ h⟩

end BondingCurve
